import Mathlib

/-!
# Verification of the heritage-hunter data-ingestion pipeline

Shallow embedding of the repository's data-sync pipeline:

* `src/lib/data-sync/parsers/base.ts`    — shared parser helpers
  (`m2ToPing`, `cleanOwnerName`, `parseArea`);
* `src/lib/data-sync/parsers/taipei.ts`, `chiayi.ts`, `changhua.ts`
  — the three concrete parsers;
* `src/lib/data-sync/normalizer.ts`      — `normalizeData`,
  `getCoordinatesForDistrict` and the static coordinate tables;
* `src/lib/data-sync/fetcher.ts`         — `DataFetcher.fetchFromTaipei`
  (paginated listing loop with its 100 000-row safety cap);
* `src/app/api/cron/sync/route.ts`       — the sync orchestrator (`GET`
  city loop and `syncCityData` with its batched upserts).

Modelling conventions:

* JavaScript numbers are embedded as `ℚ` (the pipeline performs only
  exact decimal arithmetic on the values the claims are about);
* a CSV payload is embedded as its header-keyed rows
  (`Papa.parse(text, { header: true, skipEmptyLines: true })` is
  abstracted away): a row is an association list from column name to
  cell text, and a missing column reads as `none` (JS `undefined`);
* JS truthiness is modelled explicitly: `undefined`, the empty string
  and the number `0` are falsy (`truthyS`, `jsOrS`, …);
* network and database effects are parameters: an environment record
  supplies each fetch call's outcome and each upsert batch's
  success/failure, and the store is threaded explicitly as a list of
  database rows with the `(source_city, district, land_number)`
  conflict key.
-/

namespace HeritageHunter

/-! ## JS truthiness helpers -/

/-- JS truthiness of an optional string: `undefined` and `""` are falsy. -/
def truthyS : Option String → Bool
  | none => false
  | some s => decide (s ≠ "")

/-- JS `v || default` for an optional string against a string default. -/
def jsOrS (v : Option String) (d : String) : String :=
  match v with
  | none => d
  | some s => if s = "" then d else s

/-- JS `a || b` for two optional strings (`a` when truthy, else `b` as-is). -/
def jsOrO (a b : Option String) : Option String :=
  if truthyS a then a else b

/-- JS `v || null` for an optional string (`""` collapses to `null`). -/
def jsOrNullS : Option String → Option String
  | none => none
  | some s => if s = "" then none else some s

/-- JS `v || null` for an optional number (`0` collapses to `null`). -/
def jsOrNullQ : Option ℚ → Option ℚ
  | none => none
  | some q => if q = 0 then none else some q

/-! ## Rows

A parsed CSV row: association list from column name to cell text.
`getF` is JS property access (`row.列名`), yielding `undefined` for a
missing column. -/

abbrev Row := List (String × String)

/-- JS property access on a row. -/
def getF : Row → String → Option String
  | [], _ => none
  | (k, v) :: rest, key => if k = key then some v else getF rest key

/-! ## `AbstractParser` helpers (`parsers/base.ts`) -/

/-- The canonical area-unit constant: 1 坪 = 3.30579 m². -/
def pingFactor : ℚ := 330579 / 100000

/-- `Number(x.toFixed(2))`: round to 2 decimal places
(round-to-nearest, ties away from zero toward +∞, as `toFixed`
specifies for the decimal values arising here). -/
def roundTo2 (q : ℚ) : ℚ := ((round (q * 100) : ℤ) : ℚ) / 100

/-- `m2ToPing(m2) = Number((m2 / 3.30579).toFixed(2))`. -/
def m2ToPing (m2 : ℚ) : ℚ := roundTo2 (m2 / pingFactor)

/-- `cleanOwnerName`: `undefined`/`""` give `undefined`
(`if (!name) return undefined`), otherwise
`name.trim().replace(/\s+/g, '')` — trimming followed by deleting every
whitespace run, i.e. deleting all whitespace characters. -/
def cleanOwnerName : Option String → Option String
  | none => none
  | some s => if s = "" then none else some ⟨s.data.filter (fun c => !c.isWhitespace)⟩

/-- `areaStr.replace(/,/g, '')`: delete thousands separators. -/
def stripCommas (s : String) : String := ⟨s.data.filter (fun c => !(c == ','))⟩

/-- Numeric value of a digit list (most significant first). -/
def digitsToNat : List Char → Nat :=
  List.foldl (fun a c => 10 * a + (c.toNat - 48)) 0

/-- `parseFloat` on the plain decimal numerals the area columns carry:
an optional integer part, an optional `.`-separated fractional part,
anything after the number ignored; no digits at all is `NaN`
(embedded as `none`). Signs, exponents and leading whitespace do not
occur in these feeds and are not modelled. -/
def parseDecimal (cs : List Char) : Option ℚ :=
  let intDigits := cs.takeWhile Char.isDigit
  let rest := cs.dropWhile Char.isDigit
  let fracDigits :=
    match rest with
    | '.' :: rest2 => rest2.takeWhile Char.isDigit
    | _ => []
  if intDigits.isEmpty && fracDigits.isEmpty then none
  else some ((digitsToNat intDigits : ℚ) + (digitsToNat fracDigits : ℚ) / 10 ^ fracDigits.length)

/-- `parseArea`: `undefined`/`""` give `undefined`; otherwise strip
commas and `parseFloat`, with `NaN` becoming `undefined`. -/
def parseArea : Option String → Option ℚ
  | none => none
  | some s => if s = "" then none else parseDecimal (stripCommas s).data

/-! ## Decimal rendering of a row index

The parsers synthesize placeholder land numbers with a JS template
literal `` `unknown-${index}` ``; `natToDecAux`/`natToDec` embed the
decimal rendering of a natural number. -/

/-- Little-endian decimal digit characters of `n` (empty for `0`).
The `fuel` argument is only a structural-recursion bound; any
`fuel ≥ n` gives the same value (`natToDecCore_congr`). -/
def natToDecCore : Nat → Nat → List Char
  | 0, _ => []
  | fuel + 1, n =>
    if n = 0 then []
    else Nat.digitChar (n % 10) :: natToDecCore fuel (n / 10)

/-- Decimal rendering of a natural number (JS `${n}`). -/
def natToDec (n : Nat) : String :=
  if n = 0 then "0" else ⟨(natToDecCore n n).reverse⟩

/-! ## Intermediate and canonical record shapes -/

/-- `RawLandData` (`parsers/base.ts`): the intermediate record shape.
The TS field `section` is called `sectionF` here (`section` is a Lean
keyword). -/
structure RawLandData where
  sourceCity : String
  district : String
  sectionF : Option String
  landNumber : String
  ownerName : Option String
  areaM2 : Option ℚ
  areaPing : Option ℚ
  status : Option String
  rawData : Row
deriving DecidableEq

/-- A lat/lng pair. -/
structure Coord where
  lat : ℚ
  lng : ℚ
deriving DecidableEq

/-- `NormalizedLand` (`normalizer.ts`): the canonical pipeline output.
The TS field `section` is called `sectionF` here. -/
structure NormalizedLand where
  sourceCity : String
  district : String
  sectionF : Option String
  landNumber : String
  ownerName : Option String
  areaM2 : Option ℚ
  areaPing : Option ℚ
  status : String
  coordinates : Option Coord
  rawData : Row
  sourceUrl : Option String
deriving DecidableEq

/-! ## The three parsers

Each parser is `rows.filter(keep).map((row, index) => build(index,row))`;
`mapIdxFrom` embeds the index-passing `map`. -/

/-- `List.map` with the JS callback index, starting at `i`. -/
def mapIdxFrom (f : Nat → α → β) (i : Nat) : List α → List β
  | [] => []
  | x :: xs => f i x :: mapIdxFrom f (i + 1) xs

/-- `TaipeiParser.parse` row filter: `row.被繼承人姓名 || row.地號`. -/
def taipeiKeep (r : Row) : Bool :=
  truthyS (getF r "被繼承人姓名") || truthyS (getF r "地號")

/-- `TaipeiParser.parse` record construction for the row at
(post-filter) index `i`. -/
def taipeiBuild (i : Nat) (r : Row) : RawLandData :=
  { sourceCity := "台北市"
    district := jsOrS (getF r "土地區段") "未知區"
    sectionF := getF r "地段"
    landNumber := jsOrS (getF r "地號") ("unknown-" ++ natToDec i)
    ownerName := cleanOwnerName (getF r "被繼承人姓名")
    areaM2 := parseArea (getF r "面積")
    areaPing :=
      match parseArea (getF r "面積") with
      | none => none
      | some a => if a = 0 then none else some (m2ToPing a)
    status := some (jsOrS (getF r "列管情形") "列管中")
    rawData := r }

/-- `TaipeiParser.parse` (Papa.parse of the CSV text abstracted to the
row list). -/
def taipeiParse (rows : List Row) : List RawLandData :=
  mapIdxFrom taipeiBuild 0 (rows.filter taipeiKeep)

/-- `ChiayiParser.parse` row filter:
`row.被繼承人 || row.姓名 || row.地號`. -/
def chiayiKeep (r : Row) : Bool :=
  truthyS (getF r "被繼承人") || truthyS (getF r "姓名") || truthyS (getF r "地號")

/-- `ChiayiParser.parse` record construction; `cityName` is the
constructor-selected city (`嘉義市` by default, `嘉義縣` for
`new ChiayiParser(true)`). The land number falls back to `row.小段`
before the `unknown-<index>` placeholder. -/
def chiayiBuild (cityName : String) (i : Nat) (r : Row) : RawLandData :=
  let areaM2 := parseArea (jsOrO (getF r "面積") (getF r "土地面積"))
  { sourceCity := cityName
    district := jsOrS (jsOrO (getF r "區域") (getF r "鄉鎮市區")) "未知區"
    sectionF := jsOrO (getF r "地段") (getF r "段")
    landNumber :=
      jsOrS (getF r "地號")
        (if truthyS (getF r "小段") then jsOrS (getF r "小段") ""
         else "unknown-" ++ natToDec i)
    ownerName := cleanOwnerName (jsOrO (getF r "被繼承人") (getF r "姓名"))
    areaM2 := areaM2
    areaPing :=
      match areaM2 with
      | none => none
      | some a => if a = 0 then none else some (m2ToPing a)
    status := some (jsOrS (getF r "管理情形") "列管中")
    rawData := r }

/-- `ChiayiParser.parse`. -/
def chiayiParse (cityName : String) (rows : List Row) : List RawLandData :=
  mapIdxFrom (chiayiBuild cityName) 0 (rows.filter chiayiKeep)

/-- `ChanghuaParser.parse` row filter: `row.被繼承人姓名 || row.地號`. -/
def changhuaKeep (r : Row) : Bool :=
  truthyS (getF r "被繼承人姓名") || truthyS (getF r "地號")

/-- `ChanghuaParser.parse` record construction. -/
def changhuaBuild (i : Nat) (r : Row) : RawLandData :=
  let areaM2 := parseArea (getF r "面積")
  { sourceCity := "彰化縣"
    district := jsOrS (getF r "鄉鎮市區") "未知區"
    sectionF := getF r "地段"
    landNumber := jsOrS (getF r "地號") ("unknown-" ++ natToDec i)
    ownerName := cleanOwnerName (getF r "被繼承人姓名")
    areaM2 := areaM2
    areaPing :=
      match areaM2 with
      | none => none
      | some a => if a = 0 then none else some (m2ToPing a)
    status := some (jsOrS (getF r "列管情形") "列管中")
    rawData := r }

/-- `ChanghuaParser.parse`. -/
def changhuaParse (rows : List Row) : List RawLandData :=
  mapIdxFrom changhuaBuild 0 (rows.filter changhuaKeep)

/-! ## Normalizer (`normalizer.ts`) -/

/-- Lookup in a static string-keyed table (`TABLE[key]`). -/
def lookupTab {α : Type} : List (String × α) → String → Option α
  | [], _ => none
  | (k, v) :: rest, key => if k = key then some v else lookupTab rest key

/-- `CITY_NAME_MAP`: city-name normalization table. -/
def CITY_NAME_MAP : List (String × String) :=
  [("台北市", "台北市"), ("臺北市", "台北市"), ("Taipei", "台北市"),
   ("新北市", "新北市"), ("NewTaipei", "新北市"),
   ("嘉義市", "嘉義市"), ("嘉義縣", "嘉義縣"), ("彰化縣", "彰化縣")]

/-- `DISTRICT_COORDS`: the static district → coordinate table. -/
def DISTRICT_COORDS : List (String × Coord) :=
  [("中正區", ⟨250324/10000, 1215198/10000⟩),
   ("大同區", ⟨250656/10000, 1215130/10000⟩),
   ("中山區", ⟨250648/10000, 1215332/10000⟩),
   ("松山區", ⟨250607/10000, 1215579/10000⟩),
   ("大安區", ⟨250268/10000, 1215435/10000⟩),
   ("萬華區", ⟨250319/10000, 1214970/10000⟩),
   ("信義區", ⟨250306/10000, 1215675/10000⟩),
   ("士林區", ⟨250929/10000, 1215198/10000⟩),
   ("北投區", ⟨251320/10000, 1215010/10000⟩),
   ("內湖區", ⟨250697/10000, 1215883/10000⟩),
   ("南港區", ⟨250547/10000, 1216069/10000⟩),
   ("文山區", ⟨249984/10000, 1215706/10000⟩),
   ("東區", ⟨234870/10000, 1204580/10000⟩),
   ("西區", ⟨234750/10000, 1204310/10000⟩),
   ("彰化市", ⟨240815/10000, 1205382/10000⟩),
   ("員林市", ⟨239588/10000, 1205742/10000⟩),
   ("鹿港鎮", ⟨240568/10000, 1204356/10000⟩)]

/-- The city-name alternatives of the regex
`/^(台北市|臺北市|新北市|嘉義市|嘉義縣|彰化縣)/`. -/
def cityTags : List String :=
  ["台北市", "臺北市", "新北市", "嘉義市", "嘉義縣", "彰化縣"]

/-- `district.replace(/^(台北市|…|彰化縣)/, '')`: drop a leading known
city name, working on the character list (the six alternatives are
mutually exclusive as prefixes, so `find?` matches the regex's
leftmost-alternative choice). -/
def stripCity (d : String) : String :=
  match cityTags.find? (fun p => decide (d.data.take p.data.length = p.data)) with
  | some p => ⟨d.data.drop p.data.length⟩
  | none => d

/-- The `cityCenters` fallback table local to
`getCoordinatesForDistrict`. -/
def cityCenters : List (String × Coord) :=
  [("台北市", ⟨250330/10000, 1215654/10000⟩),
   ("嘉義市", ⟨234801/10000, 1204491/10000⟩),
   ("嘉義縣", ⟨234518/10000, 1202555/10000⟩),
   ("彰化縣", ⟨240518/10000, 1205161/10000⟩)]

/-- `getCoordinatesForDistrict`: exact district lookup, then the
city-name-stripped retry, then the city-center fallback, then `null`. -/
def getCoordinatesForDistrict (city district : String) : Option Coord :=
  match lookupTab DISTRICT_COORDS district with
  | some c => some c
  | none =>
    match lookupTab DISTRICT_COORDS (stripCity district) with
    | some c => some c
    | none => lookupTab cityCenters city

/-- The body of `normalizeData`'s `map` for a single `RawLandData`. -/
def normalizeOne (sourceUrl : Option String) (data : RawLandData) : NormalizedLand :=
  let normalizedCity := jsOrS (lookupTab CITY_NAME_MAP data.sourceCity) data.sourceCity
  let coords := getCoordinatesForDistrict normalizedCity data.district
  { sourceCity := normalizedCity
    district := data.district
    sectionF := jsOrNullS data.sectionF
    landNumber := data.landNumber
    ownerName := jsOrNullS data.ownerName
    areaM2 := jsOrNullQ data.areaM2
    areaPing :=
      match jsOrNullQ data.areaPing with
      | some p => some p
      | none =>
        match data.areaM2 with
        | none => none
        | some a => if a = 0 then none else some (roundTo2 (a / pingFactor))
    status := jsOrS data.status "列管中"
    coordinates := coords
    rawData := data.rawData
    sourceUrl := jsOrNullS sourceUrl }

/-- `normalizeData(rawData, sourceUrl)`. -/
def normalizeData (rawData : List RawLandData) (sourceUrl : Option String) : List NormalizedLand :=
  rawData.map (normalizeOne sourceUrl)

/-! ## Store model and batched upsert (`syncCityData`, `part_000`) -/

/-- A stored `unclaimed_lands` row (the snake_case shape sent to the
store; `section` is called `sectionF`). -/
structure DbRow where
  source_city : String
  district : String
  sectionF : Option String
  land_number : String
  owner_name : Option String
  area_m2 : Option ℚ
  area_ping : Option ℚ
  status : String
  coordinates : Option Coord
  raw_data : Row
  source_url : Option String
deriving DecidableEq

/-- The camelCase → snake_case transform in `syncCityData`'s batch map. -/
def toDbRow (land : NormalizedLand) : DbRow :=
  { source_city := land.sourceCity
    district := land.district
    sectionF := land.sectionF
    land_number := land.landNumber
    owner_name := land.ownerName
    area_m2 := land.areaM2
    area_ping := land.areaPing
    status := land.status
    coordinates := land.coordinates
    raw_data := land.rawData
    source_url := land.sourceUrl }

/-- The store: the `unclaimed_lands` table as a row list. -/
abbrev Store := List DbRow

/-- The `onConflict: 'source_city,district,land_number'` key. -/
def rowKey (r : DbRow) : String × String × String :=
  (r.source_city, r.district, r.land_number)

/-- Upsert of one row: update the existing row with the same conflict
key, or append a new row. -/
def upsertOne : Store → DbRow → Store
  | [], r => [r]
  | x :: xs, r => if rowKey x = rowKey r then r :: xs else x :: upsertOne xs r

/-- One batch upsert (`.upsert(dbRecords, { onConflict: … })`). -/
def upsertBatch (s : Store) (batch : List DbRow) : Store :=
  batch.foldl upsertOne s

/-- Fuel-driven splitting into slices of 100 (the fuel is only a
structural-recursion bound; `chunks100` supplies `l.length`, which
always suffices). -/
def chunksAux {α : Type} : Nat → List α → List (List α)
  | _, [] => []
  | 0, l => [l]
  | fuel + 1, x :: xs => (x :: xs).take 100 :: chunksAux fuel ((x :: xs).drop 100)

/-- The batch slicing `normalizedData.slice(i, i + 100)` for
`i = 0, 100, 200, …`. -/
def chunks100 {α : Type} (l : List α) : List (List α) := chunksAux l.length l

/-- The batch loop of `syncCityData`: `batchOk i` says whether the
upsert of batch `i` returns an error; a failed batch is only logged,
a successful one adds its returned row count (`data.length`, the batch
size) to `totalRecords`. -/
def runBatches (batchOk : Nat → Bool) : Nat → List (List NormalizedLand) → Nat → Store → Nat × Store
  | _, [], totalRecords, s => (totalRecords, s)
  | i, batch :: rest, totalRecords, s =>
    let dbRecords := batch.map toDbRow
    if batchOk i then
      runBatches batchOk (i + 1) rest (totalRecords + dbRecords.length) (upsertBatch s dbRecords)
    else
      runBatches batchOk (i + 1) rest totalRecords s

/-! ## Sync orchestrator (`part_000`: `GET` and `syncCityData`) -/

/-- The per-city result pushed into `results`. -/
structure CityResult where
  city : String
  success : Bool
  recordCount : Nat
  error : Option String
deriving DecidableEq

/-- The tail of `syncCityData` after a successful fetch: batch the
normalized records by 100, upsert each batch, and return the
always-successful per-city result with the accumulated count
(`totalRecords` and the final store are the two components of the
batch loop's result). -/
def cityWrite (city : String) (batchOk : Nat → Bool) (normalizedData : List NormalizedLand)
    (db : Store) : CityResult × Store :=
  ({ city := city, success := true,
     recordCount := (runBatches batchOk 0 (chunks100 normalizedData) 0 db).1,
     error := none },
   (runBatches batchOk 0 (chunks100 normalizedData) 0 db).2)

/-- `FetchResult` (`fetcher.ts`): the CSV text is abstracted to its
parsed rows. (JS also treats an empty `data` string as a fetch
failure; an empty text cannot be told from `some []` here, and no
fetcher returns an empty success payload.) -/
structure FetchResultM where
  success : Bool
  data : Option (List Row)
  error : Option String
  recordCount : Option Nat
deriving DecidableEq

/-- The effect environment of one run: the outcome of each fetcher
call, per-city-per-batch upsert outcomes, and an optional exception
thrown inside a city's `try` block (modelled as thrown before any
store write). -/
structure SyncEnv where
  fetchTaipei : String → FetchResultM
  fetchDataGov : String → FetchResultM
  batchOk : String → Nat → Bool
  throwAt : String → Option String

/-- `syncCityData` after the dispatch: the
`!fetchResult.success || !fetchResult.data` guard, then
parse → normalize (note: the city name is passed as `normalizeData`'s
`sourceUrl` argument) → batched upsert. -/
def syncFetched (batchOk : Nat → Bool) (city : String) (fetchResult : FetchResultM)
    (parse : List Row → List RawLandData) (db : Store) : CityResult × Store :=
  match fetchResult.success, fetchResult.data with
  | true, some rows =>
    cityWrite city batchOk (normalizeData (parse rows) (some city)) db
  | _, _ =>
    ({ city := city, success := false, recordCount := 0,
       error := some (jsOrS fetchResult.error "Failed to fetch data") }, db)

/-- `syncCityData`: city dispatch table. `嘉義縣` uses
`new ChiayiParser()` with the default constructor argument, whose
`cityName` is `嘉義市` — modelled faithfully. -/
def syncCityData (env : SyncEnv) (city : String) (db : Store) : CityResult × Store :=
  match city with
  | "台北市" => syncFetched (env.batchOk city) city (env.fetchTaipei "134972") taipeiParse db
  | "嘉義市" => syncFetched (env.batchOk city) city (env.fetchDataGov "52344") (chiayiParse "嘉義市") db
  | "嘉義縣" => syncFetched (env.batchOk city) city (env.fetchDataGov "133739") (chiayiParse "嘉義市") db
  | "彰化縣" => syncFetched (env.batchOk city) city (env.fetchDataGov "28529") changhuaParse db
  | other =>
    ({ city := other, success := false, recordCount := 0,
       error := some ("Unknown city: " ++ other) }, db)

/-- One iteration of the `GET` city loop: the `try`/`catch` around
`syncCityData` (a thrown error is caught and converted to a failed
per-city result, and the loop continues). Sync-log writes are
effect-only and carry no claim-relevant state, so they are not
modelled. -/
def cityStep (env : SyncEnv) (db : Store) (city : String) : CityResult × Store :=
  match env.throwAt city with
  | some msg => ({ city := city, success := false, recordCount := 0, error := some msg }, db)
  | none => syncCityData env city db

/-- The `for (const city of cities)` loop of `GET`: each city's result
is appended and the store state is threaded into the next iteration. -/
def runCitiesAux (env : SyncEnv) (db : Store) : List String → List CityResult × Store
  | [] => ([], db)
  | c :: cs =>
    ((cityStep env db c).1 :: (runCitiesAux env (cityStep env db c).2 cs).1,
     (runCitiesAux env (cityStep env db c).2 cs).2)

/-- The run-level response body of `GET`. -/
structure RunOut where
  success : Bool
  results : List CityResult
deriving DecidableEq

/-- The `GET` orchestrator over a city list: per-city results plus the
`allSuccess = results.every(r => r.success)` flag. -/
def cronGET (env : SyncEnv) (cities : List String) (db : Store) : RunOut × Store :=
  ({ success := (runCitiesAux env db cities).1.all (fun r => r.success),
     results := (runCitiesAux env db cities).1 },
   (runCitiesAux env db cities).2)

/-- The fixed city list of the cron `GET`. -/
def cronCities : List String := ["台北市", "嘉義市", "嘉義縣", "彰化縣"]

/-! ## Paginated Taipei fetcher (`DataFetcher.fetchFromTaipei`) -/

/-- One listing-endpoint response: an HTTP error status, or the
`json.result?.results || []` record page. -/
inductive PageResp where
  | err (status : Nat)
  | ok (rows : List Row)
deriving DecidableEq

/-- Outcome of the pagination `while (true)` loop, instrumented with
the number of fetch calls made. -/
inductive LoopOut where
  | flFail (msg : String) (fetches : Nat)
  | flDone (acc : List Row) (fetches : Nat)
deriving DecidableEq

/-- The pagination loop: fetch at `offset`, stop on HTTP error or an
empty page, otherwise accumulate and stop once the total passes the
100 000-row safety cap (checked after accumulating). -/
def taipeiLoop (up : Nat → PageResp) (offset : Nat) (acc : List Row) (fetches : Nat) : LoopOut :=
  match up offset with
  | .err status => .flFail ("Failed to fetch: " ++ natToDec status) (fetches + 1)
  | .ok records =>
    if _h0 : records.isEmpty then .flDone acc (fetches + 1)
    else
      if _hcap : 100000 < (acc ++ records).length then .flDone (acc ++ records) (fetches + 1)
      else taipeiLoop up (offset + 1000) (acc ++ records) (fetches + 1)
termination_by 100001 - acc.length
decreasing_by
  simp only [List.length_append] at _hcap ⊢
  have hr : records ≠ [] := by simpa [List.isEmpty_iff] using _h0
  have : 0 < records.length := List.length_pos.mpr hr
  omega

/-- `DataFetcher.fetchFromTaipei` over an abstract listing endpoint
`up` (offset ↦ response); the `Papa.unparse` serialization of the
accumulated records is abstracted to the record list itself. -/
def fetchFromTaipei (up : Nat → PageResp) : FetchResultM :=
  match taipeiLoop up 0 [] 0 with
  | .flFail msg _ => { success := false, data := none, error := some msg, recordCount := none }
  | .flDone allRecords _ =>
    if allRecords.length = 0 then
      { success := false, data := none, error := some "No records found", recordCount := none }
    else
      { success := true, data := some allRecords, error := none,
        recordCount := some allRecords.length }

/-- The fetch-call count an outcome carries. -/
def loopFetches : LoopOut → Nat
  | .flFail _ n => n
  | .flDone _ n => n

/-- Number of listing-endpoint calls a run of `fetchFromTaipei` makes. -/
def fetchCalls (up : Nat → PageResp) : Nat :=
  loopFetches (taipeiLoop up 0 [] 0)

/-! ## Proof-side definitions (key sequences, concrete scenario data) -/

/-- Append a key to a key list unless already present: the effect of one
upsert on the store's key column. -/
def insKey (ks : List (String × String × String)) (k : String × String × String) :
    List (String × String × String) :=
  if k ∈ ks then ks else ks ++ [k]

/-- The conflict keys sent to the store by the successful batches of a
`runBatches` run, in order. -/
def okKeys (batchOk : Nat → Bool) : Nat → List (List NormalizedLand) →
    List (String × String × String)
  | _, [] => []
  | i, b :: bs =>
    (if batchOk i then (b.map toDbRow).map rowKey else []) ++ okKeys batchOk (i + 1) bs

/-- An intermediate record carrying `areaM2 = 0` together with an
explicit non-zero `areaPing` (no parser produces this pair, but the
data model admits it). -/
def c10raw : RawLandData :=
  { sourceCity := "台北市", district := "未知區", sectionF := none,
    landNumber := "1", ownerName := none, areaM2 := some 0,
    areaPing := some (4553/100), status := none, rawData := [] }

/-- The two rows of the Chiayi collision scenario: distinct owners, no
`地號` column, the same `小段` value. -/
def c5row1 : Row := [("姓名", "甲"), ("小段", "七")]

/-- Second row of the Chiayi collision scenario. -/
def c5row2 : Row := [("姓名", "乙"), ("小段", "七")]

/-- A concrete Taipei CSV row used by the run-level scenarios. -/
def wRowT : Row := [("被繼承人姓名", "王O"), ("地號", "123-4")]

/-- A concrete canonical record (no numeric fields) for the batch-loop
scenario. -/
def wLand : NormalizedLand :=
  { sourceCity := "台北市", district := "未知區", sectionF := none,
    landNumber := "1", ownerName := none, areaM2 := none, areaPing := none,
    status := "列管中", coordinates := none, rawData := [], sourceUrl := none }

/-- The three-city scenario environment: the Taipei fetch succeeds with
one row, the `嘉義市` dataset (`52344`) fetch fails, every other
data.gov fetch succeeds with an empty payload, all batches succeed,
nothing throws. -/
def wEnv : SyncEnv :=
  { fetchTaipei := fun _ =>
      { success := true, data := some [wRowT], error := none, recordCount := some 1 }
    fetchDataGov := fun d =>
      if d = "52344" then
        { success := false, data := none,
          error := some "Failed to fetch metadata: 500", recordCount := none }
      else { success := true, data := some [], error := none, recordCount := some 0 }
    batchOk := fun _ _ => true
    throwAt := fun _ => none }

/-- Three cities whose middle fetch fails under `wEnv`. -/
def wCities : List String := ["台北市", "嘉義市", "彰化縣"]

/-- A listing endpoint with one single-row page and nothing after it. -/
def wUp : Nat → PageResp :=
  fun off => if off = 0 then .ok [wRowT] else .ok []

/-- A listing endpoint that returns a full 1000-row page at every
offset, forever. -/
def upConst : Nat → PageResp :=
  fun _ => .ok (List.replicate 1000 ([] : Row))

/-! ## Helper lemmas: JS truthiness -/

theorem jsOrS_of_not_truthy {v : Option String} (h : truthyS v = false) (d : String) :
    jsOrS v d = d := by
  cases v with
  | none => rfl
  | some s =>
    simp only [truthyS, decide_eq_false_iff_not, not_not] at h
    simp [jsOrS, h]

theorem jsOrS_of_truthy {v : Option String} (h : truthyS v = true) :
    ∀ d, jsOrS v d = v.getD "" := by
  cases v with
  | none => simp [truthyS] at h
  | some s =>
    simp only [truthyS, decide_eq_true_eq] at h
    intro d
    simp [jsOrS, h]

theorem cleanOwnerName_of_not_truthy {v : Option String} (h : truthyS v = false) :
    cleanOwnerName v = none := by
  cases v with
  | none => rfl
  | some s =>
    simp only [truthyS, decide_eq_false_iff_not, not_not] at h
    simp [cleanOwnerName, h]

/-! ## Helper lemmas: decimal rendering is injective -/

theorem natToDecCore_zero (fuel : Nat) : natToDecCore fuel 0 = [] := by
  cases fuel <;> simp [natToDecCore]

theorem natToDecCore_eq_nil {fuel n : Nat} (hf : n ≤ fuel)
    (h : natToDecCore fuel n = []) : n = 0 := by
  cases fuel with
  | zero => omega
  | succ f =>
    by_contra hn
    simp [natToDecCore, hn] at h

theorem digitChar_inj_lt : ∀ a b : Nat, a < 10 → b < 10 →
    Nat.digitChar a = Nat.digitChar b → a = b := by
  have h : ∀ a : Fin 10, ∀ b : Fin 10, Nat.digitChar a.val = Nat.digitChar b.val → a = b := by
    decide
  intro a b ha hb hd
  have := h ⟨a, ha⟩ ⟨b, hb⟩ hd
  exact congrArg Fin.val this

theorem natToDecCore_inj : ∀ f1 : Nat, ∀ n1 f2 n2 : Nat, n1 ≤ f1 → n2 ≤ f2 →
    natToDecCore f1 n1 = natToDecCore f2 n2 → n1 = n2 := by
  intro f1
  induction f1 with
  | zero =>
    intro n1 f2 n2 h1 h2 h
    have hn1 : n1 = 0 := by omega
    subst hn1
    have := natToDecCore_eq_nil h2 (by simpa [natToDecCore] using h.symm)
    omega
  | succ f ih =>
    intro n1 f2 n2 h1 h2 h
    by_cases hn1 : n1 = 0
    · subst hn1
      have := natToDecCore_eq_nil h2 (by simpa [natToDecCore_zero] using h.symm)
      omega
    · by_cases hn2 : n2 = 0
      · subst hn2
        rw [natToDecCore_zero] at h
        have := @natToDecCore_eq_nil (f + 1) n1 h1 h
        omega
      · cases f2 with
        | zero => omega
        | succ g =>
          simp only [natToDecCore, hn1, hn2, if_false, List.cons.injEq] at h
          obtain ⟨hhead, htail⟩ := h
          have hmod : n1 % 10 = n2 % 10 :=
            digitChar_inj_lt _ _ (Nat.mod_lt _ (by omega)) (Nat.mod_lt _ (by omega)) hhead
          have hdiv : n1 / 10 = n2 / 10 := by
            refine ih (n1 / 10) g (n2 / 10) ?_ ?_ htail <;> omega
          omega

theorem natToDec_inj {m n : Nat} (h : natToDec m = natToDec n) : m = n := by
  have hdata := congrArg String.data h
  by_cases hm : m = 0 <;> by_cases hn : n = 0
  · omega
  · exfalso
    simp only [natToDec, hm, hn, if_true, if_false] at hdata
    have hrev : ['0'] = (natToDecCore n n).reverse := hdata
    have hcore : natToDecCore n n = ['0'] := by
      have := congrArg List.reverse hrev
      simpa using this.symm
    cases hN : n with
    | zero => omega
    | succ k =>
      rw [hN] at hcore
      simp only [natToDecCore, Nat.succ_ne_zero, if_false] at hcore
      obtain ⟨hhead, htail⟩ := List.cons.injEq _ _ _ _ |>.mp hcore
      have htl0 : (k + 1) / 10 = 0 := natToDecCore_eq_nil (by omega) htail
      have hhd0 : (k + 1) % 10 = 0 := by
        have : Nat.digitChar ((k+1) % 10) = Nat.digitChar 0 := hhead
        exact digitChar_inj_lt _ _ (Nat.mod_lt _ (by omega)) (by omega) this
      omega
  · exfalso
    simp only [natToDec, hm, hn, if_true, if_false] at hdata
    have hrev : (natToDecCore m m).reverse = ['0'] := hdata
    have hcore : natToDecCore m m = ['0'] := by
      have := congrArg List.reverse hrev
      simpa using this
    cases hM : m with
    | zero => omega
    | succ k =>
      rw [hM] at hcore
      simp only [natToDecCore, Nat.succ_ne_zero, if_false] at hcore
      obtain ⟨hhead, htail⟩ := List.cons.injEq _ _ _ _ |>.mp hcore
      have htl0 : (k + 1) / 10 = 0 := natToDecCore_eq_nil (by omega) htail
      have hhd0 : (k + 1) % 10 = 0 := by
        have : Nat.digitChar ((k+1) % 10) = Nat.digitChar 0 := hhead
        exact digitChar_inj_lt _ _ (Nat.mod_lt _ (by omega)) (by omega) this
      omega
  · simp only [natToDec, hm, hn, if_false] at hdata
    have : natToDecCore m m = natToDecCore n n := by
      have := congrArg List.reverse hdata
      simpa using this
    exact natToDecCore_inj m m n n (le_refl m) (le_refl n) this

theorem unknown_placeholder_inj {i j : Nat}
    (h : "unknown-" ++ natToDec i = "unknown-" ++ natToDec j) : i = j := by
  have hdata := congrArg String.data h
  simp only [String.data_append] at hdata
  have := List.append_cancel_left hdata
  exact natToDec_inj (String.ext this)

/-! ## Helper lemmas: `mapIdxFrom` -/

theorem length_mapIdxFrom (f : Nat → α → β) (i : Nat) (l : List α) :
    (mapIdxFrom f i l).length = l.length := by
  induction l generalizing i with
  | nil => rfl
  | cons x xs ih => simp [mapIdxFrom, ih]

theorem get_mapIdxFrom (f : Nat → α → β) :
    ∀ (l : List α) (i j : Nat) (h : j < (mapIdxFrom f i l).length)
      (h2 : j < l.length),
      (mapIdxFrom f i l).get ⟨j, h⟩ = f (i + j) (l.get ⟨j, h2⟩) := by
  intro l
  induction l with
  | nil =>
    intro i j h h2
    rw [length_mapIdxFrom] at h
    simp at h
  | cons x xs ih =>
    intro i j h h2
    cases j with
    | zero => rfl
    | succ k =>
      have hk : k < (mapIdxFrom f (i + 1) xs).length := by
        rw [length_mapIdxFrom]
        rw [length_mapIdxFrom] at h
        simp only [List.length_cons] at h
        omega
      have hk2 : k < xs.length := by simpa using h2
      have := ih (i + 1) k hk hk2
      simp only [mapIdxFrom, List.get_cons_succ, this]
      congr 1
      omega

/-! ## Claim theorems -/

/-- **C4, counterexample.** For `a = 0.0166` the claimed `0.01`
round-trip tolerance fails: `m2ToPing 0.0166 = 0.01` and
`0.01 × 3.30579 = 0.0330579`, which is `0.0164579 > 0.01` away
from `a`. -/
theorem C4_counterexample :
    ¬ (|m2ToPing (166/10000) * pingFactor - 166/10000| ≤ 1/100) := by
  norm_num [m2ToPing, roundTo2, pingFactor, round_eq, abs_le]

/-- **C4 (amended).** The ping round-trip
`a ↦ m2ToPing a × 3.30579` reproduces every `areaM2` value `a` within
`3.30579 × 0.005 = 0.01652895` (the half-unit of the 2-decimal
rounding scaled by the conversion factor) — not within `0.01`. -/
theorem C4_roundtrip_amended (a : ℚ) :
    |m2ToPing a * pingFactor - a| ≤ 330579/20000000 := by
  have h1 : |((round (a / pingFactor * 100) : ℤ) : ℚ) - a / pingFactor * 100| ≤ 1/2 := by
    simpa [abs_sub_comm] using abs_sub_round (a / pingFactor * 100)
  have h2 : m2ToPing a * pingFactor - a
      = (((round (a / pingFactor * 100) : ℤ) : ℚ) - a / pingFactor * 100) * (pingFactor / 100) := by
    unfold m2ToPing roundTo2 pingFactor
    ring
  rw [h2, abs_mul]
  have h3 : |pingFactor / 100| = 330579/10000000 := by norm_num [pingFactor, abs_of_pos]
  rw [h3]
  nlinarith [h1]

/-- **C4, witness of the amended bound at a concrete input**
(`a = 150.5` m² gives `45.53` ping, within the amended tolerance). -/
theorem C4_witness :
    m2ToPing (1505/10) = 4553/100 ∧
      |m2ToPing (1505/10) * pingFactor - 1505/10| ≤ 330579/20000000 := by
  constructor
  · norm_num [m2ToPing, roundTo2, pingFactor, round_eq]
  · exact C4_roundtrip_amended (1505/10)

/-- **C9.** When the listing endpoint's first page is already empty,
`fetchFromTaipei` returns the failure result with error
`"No records found"`, not a success with an empty dataset. -/
theorem C9_empty_yields_failure (up : Nat → PageResp) (h : up 0 = .ok []) :
    fetchFromTaipei up =
      { success := false, data := none, error := some "No records found",
        recordCount := none } := by
  unfold fetchFromTaipei
  rw [taipeiLoop, h]
  simp

/-- **C9, witness**: the theorem at the concrete endpoint whose every
page is empty. -/
theorem C9_witness :
    fetchFromTaipei (fun _ => .ok []) =
      { success := false, data := none, error := some "No records found",
        recordCount := none } :=
  C9_empty_yields_failure (fun _ => .ok []) rfl

/-- **C7.** `getCoordinatesForDistrict` resolves in exactly the claimed
order: exact district-table match first; else the district-table match
after stripping a known city-name prefix; else the city-center table
(which yields `none` exactly when the city is unrecognized). -/
theorem C7_coordinate_fallback_chain (city district : String) :
    (∀ c, lookupTab DISTRICT_COORDS district = some c →
      getCoordinatesForDistrict city district = some c) ∧
    (lookupTab DISTRICT_COORDS district = none →
      ∀ c, lookupTab DISTRICT_COORDS (stripCity district) = some c →
        getCoordinatesForDistrict city district = some c) ∧
    (lookupTab DISTRICT_COORDS district = none →
      lookupTab DISTRICT_COORDS (stripCity district) = none →
        getCoordinatesForDistrict city district = lookupTab cityCenters city) ∧
    (lookupTab DISTRICT_COORDS district = none →
      lookupTab DISTRICT_COORDS (stripCity district) = none →
        lookupTab cityCenters city = none →
          getCoordinatesForDistrict city district = none) := by
  refine ⟨?_, ?_, ?_, ?_⟩
  · intro c hc
    simp [getCoordinatesForDistrict, hc]
  · intro h1 c hc
    simp [getCoordinatesForDistrict, h1, hc]
  · intro h1 h2
    simp [getCoordinatesForDistrict, h1, h2]
  · intro h1 h2 h3
    simp [getCoordinatesForDistrict, h1, h2, h3]

/-- **C7, witness**: the four stages of the chain at concrete inputs —
`中正區` resolves exactly; `臺北市中正區` resolves after stripping the
city prefix; `六腳鄉` in `嘉義縣` falls back to the city center; and
`左營區` in the unrecognized `高雄市` resolves to `none`. -/
theorem C7_witness :
    getCoordinatesForDistrict "台北市" "中正區" = some ⟨250324/10000, 1215198/10000⟩ ∧
    getCoordinatesForDistrict "台北市" "臺北市中正區" = some ⟨250324/10000, 1215198/10000⟩ ∧
    getCoordinatesForDistrict "嘉義縣" "六腳鄉" = some ⟨234518/10000, 1202555/10000⟩ ∧
    getCoordinatesForDistrict "高雄市" "左營區" = none := by
  refine ⟨?_, ?_, ?_, ?_⟩
  · exact (C7_coordinate_fallback_chain "台北市" "中正區").1 _ rfl
  · exact (C7_coordinate_fallback_chain "台北市" "臺北市中正區").2.1 rfl _ (by rfl)
  · exact ((C7_coordinate_fallback_chain "嘉義縣" "六腳鄉").2.2.1 rfl (by rfl)).trans rfl
  · exact (C7_coordinate_fallback_chain "高雄市" "左營區").2.2.2 rfl (by rfl) rfl

theorem jsOrO_of_not_truthy {a : Option String} (h : truthyS a = false) (b : Option String) :
    jsOrO a b = b := by
  simp [jsOrO, h]

/-- **C6.** For each of the three parsers: a row with neither an
owner-name-equivalent field nor a (truthy) land-number field is dropped
(parsing with and without it gives the same output), while a row with a
land number but no owner name is kept, and the record built from it
normalizes to a `null` `ownerName`. -/
theorem C6_row_filtering :
    (∀ (r : Row) (rows : List Row),
      truthyS (getF r "被繼承人姓名") = false → truthyS (getF r "地號") = false →
        taipeiParse (r :: rows) = taipeiParse rows) ∧
    (∀ (r : Row) (rows : List Row),
      truthyS (getF r "地號") = true → truthyS (getF r "被繼承人姓名") = false →
        (taipeiParse (r :: rows)).head? = some (taipeiBuild 0 r) ∧
        ∀ u, (normalizeOne u (taipeiBuild 0 r)).ownerName = none) ∧
    (∀ (c : String) (r : Row) (rows : List Row),
      truthyS (getF r "被繼承人") = false → truthyS (getF r "姓名") = false →
      truthyS (getF r "地號") = false →
        chiayiParse c (r :: rows) = chiayiParse c rows) ∧
    (∀ (c : String) (r : Row) (rows : List Row),
      truthyS (getF r "地號") = true →
      truthyS (getF r "被繼承人") = false → truthyS (getF r "姓名") = false →
        (chiayiParse c (r :: rows)).head? = some (chiayiBuild c 0 r) ∧
        ∀ u, (normalizeOne u (chiayiBuild c 0 r)).ownerName = none) ∧
    (∀ (r : Row) (rows : List Row),
      truthyS (getF r "被繼承人姓名") = false → truthyS (getF r "地號") = false →
        changhuaParse (r :: rows) = changhuaParse rows) ∧
    (∀ (r : Row) (rows : List Row),
      truthyS (getF r "地號") = true → truthyS (getF r "被繼承人姓名") = false →
        (changhuaParse (r :: rows)).head? = some (changhuaBuild 0 r) ∧
        ∀ u, (normalizeOne u (changhuaBuild 0 r)).ownerName = none) := by
  refine ⟨?_, ?_, ?_, ?_, ?_, ?_⟩
  · intro r rows h1 h2
    have hk : taipeiKeep r = false := by simp [taipeiKeep, h1, h2]
    simp [taipeiParse, List.filter_cons, hk]
  · intro r rows h1 h2
    have hk : taipeiKeep r = true := by simp [taipeiKeep, h1]
    constructor
    · simp [taipeiParse, List.filter_cons, hk, mapIdxFrom]
    · intro u
      simp [normalizeOne, taipeiBuild, cleanOwnerName_of_not_truthy h2, jsOrNullS]
  · intro c r rows h1 h2 h3
    have hk : chiayiKeep r = false := by simp [chiayiKeep, h1, h2, h3]
    simp [chiayiParse, List.filter_cons, hk]
  · intro c r rows h1 h2 h3
    have hk : chiayiKeep r = true := by simp [chiayiKeep, h1]
    constructor
    · simp [chiayiParse, List.filter_cons, hk, mapIdxFrom]
    · intro u
      have howner : cleanOwnerName (jsOrO (getF r "被繼承人") (getF r "姓名")) = none := by
        rw [jsOrO_of_not_truthy h2]
        exact cleanOwnerName_of_not_truthy h3
      simp [normalizeOne, chiayiBuild, howner, jsOrNullS]
  · intro r rows h1 h2
    have hk : changhuaKeep r = false := by simp [changhuaKeep, h1, h2]
    simp [changhuaParse, List.filter_cons, hk]
  · intro r rows h1 h2
    have hk : changhuaKeep r = true := by simp [changhuaKeep, h1]
    constructor
    · simp [changhuaParse, List.filter_cons, hk, mapIdxFrom]
    · intro u
      simp [normalizeOne, changhuaBuild, cleanOwnerName_of_not_truthy h2, jsOrNullS]

/-- **C6, witness**: a footer-like row with neither field is dropped by
the Taipei parser, and a row with only a land number is kept with a
normalized `null` owner name. -/
theorem C6_witness :
    taipeiParse [[("列管情形", "備註")]] = taipeiParse [] ∧
    (taipeiParse [[("地號", "9")]]).head? = some (taipeiBuild 0 [("地號", "9")]) ∧
    (normalizeOne none (taipeiBuild 0 [("地號", "9")])).ownerName = none := by
  refine ⟨?_, ?_, ?_⟩
  · exact C6_row_filtering.1 [("列管情形", "備註")] [] (by decide) (by decide)
  · exact (C6_row_filtering.2.1 [("地號", "9")] [] (by decide) (by decide)).1
  · exact (C6_row_filtering.2.1 [("地號", "9")] [] (by decide) (by decide)).2 none

/-- **C10, counterexample.** The normalizer does not always null the
`areaPing` of a record whose `areaM2` is `0`: on `c10raw` it emits
`areaPing = 45.53` (the record's own non-zero `areaPing` survives the
`data.areaPing || …` fallback). -/
theorem C10_counterexample :
    ¬ ((normalizeOne none c10raw).areaM2 = none ∧
       (normalizeOne none c10raw).areaPing = none) := by
  intro h
  have h2 := h.2
  norm_num [normalizeOne, c10raw, jsOrNullQ] at h2
  exact Option.noConfusion h2

/-- **C10 (amended).** A record with `areaM2 = 0` normalizes to
`areaM2 = null`, and also to `areaPing = null` provided its own
`areaPing` is absent or `0`; and each parser emits `areaPing = none`
(never a converted value) whenever its parsed area is `0` — as is the
case for every parser-built record, so a zero source area is never
preserved through the parse → normalize pipeline. -/
theorem C10_zero_area_amended :
    (∀ (d : RawLandData) (u : Option String), d.areaM2 = some 0 →
      (normalizeOne u d).areaM2 = none ∧
      ((d.areaPing = none ∨ d.areaPing = some 0) → (normalizeOne u d).areaPing = none)) ∧
    (∀ (i : Nat) (r : Row), parseArea (getF r "面積") = some 0 →
      (taipeiBuild i r).areaM2 = some 0 ∧ (taipeiBuild i r).areaPing = none) ∧
    (∀ (c : String) (i : Nat) (r : Row),
      parseArea (jsOrO (getF r "面積") (getF r "土地面積")) = some 0 →
      (chiayiBuild c i r).areaM2 = some 0 ∧ (chiayiBuild c i r).areaPing = none) ∧
    (∀ (i : Nat) (r : Row), parseArea (getF r "面積") = some 0 →
      (changhuaBuild i r).areaM2 = some 0 ∧ (changhuaBuild i r).areaPing = none) := by
  refine ⟨?_, ?_, ?_, ?_⟩
  · intro d u hm2
    constructor
    · simp [normalizeOne, hm2, jsOrNullQ]
    · intro hp
      rcases hp with hp | hp <;> simp [normalizeOne, hm2, hp, jsOrNullQ]
  · intro i r h
    exact ⟨by simp [taipeiBuild, h], by simp [taipeiBuild, h]⟩
  · intro c i r h
    exact ⟨by simp [chiayiBuild, h], by simp [chiayiBuild, h]⟩
  · intro i r h
    exact ⟨by simp [changhuaBuild, h], by simp [changhuaBuild, h]⟩

/-- **C10, witness**: a Taipei row with area text `"0"` parses to
`areaM2 = 0` with no `areaPing`, and normalizing that record nulls
both area fields. -/
theorem C10_witness :
    (taipeiBuild 0 [("地號", "9"), ("面積", "0")]).areaM2 = some 0 ∧
    (taipeiBuild 0 [("地號", "9"), ("面積", "0")]).areaPing = none ∧
    (normalizeOne none (taipeiBuild 0 [("地號", "9"), ("面積", "0")])).areaM2 = none ∧
    (normalizeOne none (taipeiBuild 0 [("地號", "9"), ("面積", "0")])).areaPing = none := by
  have harea : parseArea (getF [("地號", "9"), ("面積", "0")] "面積") = some 0 := by
    have h0 : getF [("地號", "9"), ("面積", "0")] "面積" = some "0" := by decide
    have h1 : parseArea (some "0") =
        some (((0 : Nat) : ℚ) + ((0 : Nat) : ℚ) / 10 ^ (0 : Nat)) := rfl
    rw [h0, h1]
    norm_num
  have hbuild := C10_zero_area_amended.2.1 0 [("地號", "9"), ("面積", "0")] harea
  have hnorm := C10_zero_area_amended.1 (taipeiBuild 0 [("地號", "9"), ("面積", "0")]) none hbuild.1
  exact ⟨hbuild.1, hbuild.2, hnorm.1, hnorm.2 (Or.inl hbuild.2)⟩

theorem mapIdxFrom_zero_get (f : Nat → α → β) (l : List α) (i : Nat)
    (h : i < (mapIdxFrom f 0 l).length) (h2 : i < l.length) :
    (mapIdxFrom f 0 l).get ⟨i, h⟩ = f i (l.get ⟨i, h2⟩) := by
  simpa using get_mapIdxFrom f l 0 i h h2

/-- **C5, counterexample.** In the Chiayi parser, two distinct rows
that both lack a land-number field do not receive index-derived
placeholders: the `row.小段` fallback fires first, and both records
get the identical land number `"七"` — a collision. -/
theorem C5_counterexample :
    c5row1 ≠ c5row2 ∧
    truthyS (getF c5row1 "地號") = false ∧
    truthyS (getF c5row2 "地號") = false ∧
    ((chiayiParse "嘉義市" [c5row1, c5row2]).get ⟨0, by decide⟩).landNumber = "七" ∧
    ((chiayiParse "嘉義市" [c5row1, c5row2]).get ⟨1, by decide⟩).landNumber = "七" := by
  refine ⟨by decide, by decide, by decide, by decide, by decide⟩

/-- **C5 (amended).** The index-derived placeholders never collide for
rows that actually receive them: in the Taipei and Changhua parsers any
two distinct output positions whose rows lack a (truthy) land-number
field carry the distinct land numbers `unknown-<i>` and `unknown-<j>`;
in the Chiayi parser the same holds provided the rows also lack a
(truthy) `小段` field, since `小段` pre-empts the placeholder. -/
theorem C5_placeholder_amended :
    (∀ (rows : List Row) (i j : Nat)
      (hi : i < (taipeiParse rows).length) (hj : j < (taipeiParse rows).length),
      i ≠ j →
      truthyS (getF ((taipeiParse rows).get ⟨i, hi⟩).rawData "地號") = false →
      truthyS (getF ((taipeiParse rows).get ⟨j, hj⟩).rawData "地號") = false →
        ((taipeiParse rows).get ⟨i, hi⟩).landNumber = "unknown-" ++ natToDec i ∧
        ((taipeiParse rows).get ⟨j, hj⟩).landNumber = "unknown-" ++ natToDec j ∧
        ((taipeiParse rows).get ⟨i, hi⟩).landNumber ≠
          ((taipeiParse rows).get ⟨j, hj⟩).landNumber) ∧
    (∀ (rows : List Row) (i j : Nat)
      (hi : i < (changhuaParse rows).length) (hj : j < (changhuaParse rows).length),
      i ≠ j →
      truthyS (getF ((changhuaParse rows).get ⟨i, hi⟩).rawData "地號") = false →
      truthyS (getF ((changhuaParse rows).get ⟨j, hj⟩).rawData "地號") = false →
        ((changhuaParse rows).get ⟨i, hi⟩).landNumber = "unknown-" ++ natToDec i ∧
        ((changhuaParse rows).get ⟨j, hj⟩).landNumber = "unknown-" ++ natToDec j ∧
        ((changhuaParse rows).get ⟨i, hi⟩).landNumber ≠
          ((changhuaParse rows).get ⟨j, hj⟩).landNumber) ∧
    (∀ (c : String) (rows : List Row) (i j : Nat)
      (hi : i < (chiayiParse c rows).length) (hj : j < (chiayiParse c rows).length),
      i ≠ j →
      truthyS (getF ((chiayiParse c rows).get ⟨i, hi⟩).rawData "地號") = false →
      truthyS (getF ((chiayiParse c rows).get ⟨i, hi⟩).rawData "小段") = false →
      truthyS (getF ((chiayiParse c rows).get ⟨j, hj⟩).rawData "地號") = false →
      truthyS (getF ((chiayiParse c rows).get ⟨j, hj⟩).rawData "小段") = false →
        ((chiayiParse c rows).get ⟨i, hi⟩).landNumber = "unknown-" ++ natToDec i ∧
        ((chiayiParse c rows).get ⟨j, hj⟩).landNumber = "unknown-" ++ natToDec j ∧
        ((chiayiParse c rows).get ⟨i, hi⟩).landNumber ≠
          ((chiayiParse c rows).get ⟨j, hj⟩).landNumber) := by
  refine ⟨?_, ?_, ?_⟩
  · intro rows i j hi hj hne htri htrj
    have hi2 : i < (rows.filter taipeiKeep).length := by
      simpa [taipeiParse, length_mapIdxFrom] using hi
    have hj2 : j < (rows.filter taipeiKeep).length := by
      simpa [taipeiParse, length_mapIdxFrom] using hj
    have hgi : (taipeiParse rows).get ⟨i, hi⟩
        = taipeiBuild i ((rows.filter taipeiKeep).get ⟨i, hi2⟩) :=
      mapIdxFrom_zero_get _ _ _ hi hi2
    have hgj : (taipeiParse rows).get ⟨j, hj⟩
        = taipeiBuild j ((rows.filter taipeiKeep).get ⟨j, hj2⟩) :=
      mapIdxFrom_zero_get _ _ _ hj hj2
    rw [hgi] at htri ⊢
    rw [hgj] at htrj ⊢
    simp only [taipeiBuild] at htri htrj
    simp only [List.get_eq_getElem] at htri htrj
    have hli : (taipeiBuild i ((rows.filter taipeiKeep).get ⟨i, hi2⟩)).landNumber
        = "unknown-" ++ natToDec i := by
      simp [taipeiBuild, jsOrS_of_not_truthy htri]
    have hlj : (taipeiBuild j ((rows.filter taipeiKeep).get ⟨j, hj2⟩)).landNumber
        = "unknown-" ++ natToDec j := by
      simp [taipeiBuild, jsOrS_of_not_truthy htrj]
    refine ⟨hli, hlj, ?_⟩
    rw [hli, hlj]
    intro heq
    exact hne (unknown_placeholder_inj heq)
  · intro rows i j hi hj hne htri htrj
    have hi2 : i < (rows.filter changhuaKeep).length := by
      simpa [changhuaParse, length_mapIdxFrom] using hi
    have hj2 : j < (rows.filter changhuaKeep).length := by
      simpa [changhuaParse, length_mapIdxFrom] using hj
    have hgi : (changhuaParse rows).get ⟨i, hi⟩
        = changhuaBuild i ((rows.filter changhuaKeep).get ⟨i, hi2⟩) :=
      mapIdxFrom_zero_get _ _ _ hi hi2
    have hgj : (changhuaParse rows).get ⟨j, hj⟩
        = changhuaBuild j ((rows.filter changhuaKeep).get ⟨j, hj2⟩) :=
      mapIdxFrom_zero_get _ _ _ hj hj2
    rw [hgi] at htri ⊢
    rw [hgj] at htrj ⊢
    simp only [changhuaBuild] at htri htrj
    simp only [List.get_eq_getElem] at htri htrj
    have hli : (changhuaBuild i ((rows.filter changhuaKeep).get ⟨i, hi2⟩)).landNumber
        = "unknown-" ++ natToDec i := by
      simp [changhuaBuild, jsOrS_of_not_truthy htri]
    have hlj : (changhuaBuild j ((rows.filter changhuaKeep).get ⟨j, hj2⟩)).landNumber
        = "unknown-" ++ natToDec j := by
      simp [changhuaBuild, jsOrS_of_not_truthy htrj]
    refine ⟨hli, hlj, ?_⟩
    rw [hli, hlj]
    intro heq
    exact hne (unknown_placeholder_inj heq)
  · intro c rows i j hi hj hne htri hsi htrj hsj
    have hi2 : i < (rows.filter chiayiKeep).length := by
      simpa [chiayiParse, length_mapIdxFrom] using hi
    have hj2 : j < (rows.filter chiayiKeep).length := by
      simpa [chiayiParse, length_mapIdxFrom] using hj
    have hgi : (chiayiParse c rows).get ⟨i, hi⟩
        = chiayiBuild c i ((rows.filter chiayiKeep).get ⟨i, hi2⟩) :=
      mapIdxFrom_zero_get _ _ _ hi hi2
    have hgj : (chiayiParse c rows).get ⟨j, hj⟩
        = chiayiBuild c j ((rows.filter chiayiKeep).get ⟨j, hj2⟩) :=
      mapIdxFrom_zero_get _ _ _ hj hj2
    rw [hgi] at htri hsi ⊢
    rw [hgj] at htrj hsj ⊢
    simp only [chiayiBuild] at htri hsi htrj hsj
    simp only [List.get_eq_getElem] at htri hsi htrj hsj
    have hli : (chiayiBuild c i ((rows.filter chiayiKeep).get ⟨i, hi2⟩)).landNumber
        = "unknown-" ++ natToDec i := by
      simp [chiayiBuild, jsOrS_of_not_truthy htri, hsi]
    have hlj : (chiayiBuild c j ((rows.filter chiayiKeep).get ⟨j, hj2⟩)).landNumber
        = "unknown-" ++ natToDec j := by
      simp [chiayiBuild, jsOrS_of_not_truthy htrj, hsj]
    refine ⟨hli, hlj, ?_⟩
    rw [hli, hlj]
    intro heq
    exact hne (unknown_placeholder_inj heq)

/-- **C5, witness of the amended claim**: two Taipei rows with owners
but no land numbers receive the distinct placeholders `unknown-0` and
`unknown-1`. -/
theorem C5_witness :
    ((taipeiParse [[("被繼承人姓名", "甲")], [("被繼承人姓名", "乙")]]).get
        ⟨0, by decide⟩).landNumber = "unknown-" ++ natToDec 0 ∧
    ((taipeiParse [[("被繼承人姓名", "甲")], [("被繼承人姓名", "乙")]]).get
        ⟨0, by decide⟩).landNumber ≠
      ((taipeiParse [[("被繼承人姓名", "甲")], [("被繼承人姓名", "乙")]]).get
        ⟨1, by decide⟩).landNumber := by
  have h := C5_placeholder_amended.1 [[("被繼承人姓名", "甲")], [("被繼承人姓名", "乙")]]
    0 1 (by decide) (by decide) (by decide) (by decide) (by decide)
  exact ⟨h.1, h.2.2⟩

/-! ## Helper lemmas: store keys under upsert -/

theorem map_rowKey_upsertOne (s : Store) (r : DbRow) :
    (upsertOne s r).map rowKey = insKey (s.map rowKey) (rowKey r) := by
  induction s with
  | nil => simp [upsertOne, insKey]
  | cons x xs ih =>
    by_cases h : rowKey x = rowKey r
    · simp [upsertOne, h, insKey]
    · by_cases hm : rowKey r ∈ xs.map rowKey
      · simp [upsertOne, h, ih, insKey, hm, Ne.symm h]
      · simp [upsertOne, h, ih, insKey, hm, Ne.symm h]

theorem map_rowKey_upsertBatch (b : List DbRow) :
    ∀ s : Store, (upsertBatch s b).map rowKey
      = List.foldl insKey (s.map rowKey) (b.map rowKey) := by
  induction b with
  | nil => intro s; rfl
  | cons r rs ih =>
    intro s
    have h1 : upsertBatch s (r :: rs) = upsertBatch (upsertOne s r) rs := rfl
    rw [h1, ih, map_rowKey_upsertOne]
    rfl

theorem map_rowKey_runBatches (batchOk : Nat → Bool) :
    ∀ (bs : List (List NormalizedLand)) (i t : Nat) (s : Store),
      ((runBatches batchOk i bs t s).2).map rowKey
        = List.foldl insKey (s.map rowKey) (okKeys batchOk i bs) := by
  intro bs
  induction bs with
  | nil => intro i t s; rfl
  | cons b rest ih =>
    intro i t s
    cases h : batchOk i with
    | true =>
      simp [runBatches, h, okKeys, List.foldl_append, ih, map_rowKey_upsertBatch]
    | false =>
      simp [runBatches, h, okKeys, ih]

theorem mem_foldl_insKey_init {k : String × String × String} :
    ∀ (seq ks : List (String × String × String)), k ∈ ks →
      k ∈ List.foldl insKey ks seq := by
  intro seq
  induction seq with
  | nil => intro ks h; exact h
  | cons a rest ih =>
    intro ks h
    refine ih (insKey ks a) ?_
    unfold insKey
    split
    · exact h
    · exact List.mem_append_left _ h

theorem mem_foldl_insKey_seq {k : String × String × String} :
    ∀ (seq ks : List (String × String × String)), k ∈ seq →
      k ∈ List.foldl insKey ks seq := by
  intro seq
  induction seq with
  | nil => intro ks h; simp at h
  | cons a rest ih =>
    intro ks h
    rcases List.mem_cons.mp h with h | h
    · subst h
      refine mem_foldl_insKey_init rest _ ?_
      unfold insKey
      split
      · assumption
      · exact List.mem_append_right _ (List.mem_singleton.mpr rfl)
    · exact ih _ h

theorem foldl_insKey_of_subset :
    ∀ (seq ks : List (String × String × String)), (∀ k ∈ seq, k ∈ ks) →
      List.foldl insKey ks seq = ks := by
  intro seq
  induction seq with
  | nil => intro ks _; rfl
  | cons a rest ih =>
    intro ks h
    have ha : insKey ks a = ks := by
      unfold insKey
      rw [if_pos (h a (List.mem_cons_self a rest))]
    simp only [List.foldl_cons, ha]
    exact ih ks (fun k hk => h k (List.mem_cons_of_mem a hk))

theorem foldl_insKey_idem (seq ks : List (String × String × String)) :
    List.foldl insKey (List.foldl insKey ks seq) seq = List.foldl insKey ks seq :=
  foldl_insKey_of_subset seq _ (fun _ hk => mem_foldl_insKey_seq seq ks hk)

theorem runBatches_store_len_idem (batchOk : Nat → Bool)
    (bs : List (List NormalizedLand)) (t1 t2 : Nat) (s : Store) :
    ((runBatches batchOk 0 bs t2 (runBatches batchOk 0 bs t1 s).2).2).length
      = ((runBatches batchOk 0 bs t1 s).2).length := by
  have h1 := map_rowKey_runBatches batchOk bs 0 t1 s
  have h2 := map_rowKey_runBatches batchOk bs 0 t2 (runBatches batchOk 0 bs t1 s).2
  rw [h1] at h2
  rw [foldl_insKey_idem] at h2
  rw [← h1] at h2
  have := congrArg List.length h2
  simpa using this

theorem syncFetched_len_idem (batchOk : Nat → Bool) (city : String)
    (fr : FetchResultM) (parse : List Row → List RawLandData) (db : Store) :
    ((syncFetched batchOk city fr parse
        (syncFetched batchOk city fr parse db).2).2).length
      = ((syncFetched batchOk city fr parse db).2).length := by
  rcases fr with ⟨fs, fd, fe, fc⟩
  cases fs with
  | false => rfl
  | true =>
    cases fd with
    | none => rfl
    | some rows =>
      simp only [syncFetched, cityWrite]
      exact runBatches_store_len_idem batchOk _ 0 0 db

/-- **C2.** Running the same per-city sync twice against identical
upstream data (the same environment) leaves the stored record count
unchanged after the second run: the batched upsert keys every row by
`(source_city, district, land_number)`, so the second run only updates
rows already present. -/
theorem C2_sync_idempotent (env : SyncEnv) (city : String) (db : Store) :
    ((syncCityData env city (syncCityData env city db).2).2).length
      = ((syncCityData env city db).2).length := by
  unfold syncCityData
  split
  · exact syncFetched_len_idem _ _ _ _ db
  · exact syncFetched_len_idem _ _ _ _ db
  · exact syncFetched_len_idem _ _ _ _ db
  · exact syncFetched_len_idem _ _ _ _ db
  · split <;> simp_all

/-! ## Helper lemmas: batch slicing and the batch loop -/

theorem chunksAux_flatten {α : Type} :
    ∀ (fuel : Nat) (l : List α), l.length ≤ fuel → (chunksAux fuel l).flatten = l := by
  intro fuel
  induction fuel with
  | zero =>
    intro l h
    have : l = [] := List.length_eq_zero.mp (by omega)
    subst this
    rfl
  | succ f ih =>
    intro l h
    cases l with
    | nil => rfl
    | cons x xs =>
      have hd : ((x :: xs).drop 100).length ≤ f := by
        simp only [List.length_drop, List.length_cons]
        simp only [List.length_cons] at h
        omega
      simp only [chunksAux, List.flatten_cons, ih _ hd, List.take_append_drop]

theorem chunksAux_sizes {α : Type} :
    ∀ (fuel : Nat) (l : List α), l.length ≤ fuel →
      ∀ b ∈ chunksAux fuel l, b.length ≤ 100 := by
  intro fuel
  induction fuel with
  | zero =>
    intro l h b hb
    have : l = [] := List.length_eq_zero.mp (by omega)
    subst this
    simp [chunksAux] at hb
  | succ f ih =>
    intro l h b hb
    cases l with
    | nil => simp [chunksAux] at hb
    | cons x xs =>
      simp only [chunksAux, List.mem_cons] at hb
      rcases hb with hb | hb
      · subst hb
        simp
      · refine ih _ ?_ b hb
        simp only [List.length_drop, List.length_cons]
        simp only [List.length_cons] at h
        omega

theorem chunks100_flatten {α : Type} (l : List α) : (chunks100 l).flatten = l :=
  chunksAux_flatten l.length l (le_refl _)

theorem chunks100_sizes {α : Type} (l : List α) : ∀ b ∈ chunks100 l, b.length ≤ 100 :=
  chunksAux_sizes l.length l (le_refl _)

theorem runBatches_count (batchOk : Nat → Bool) :
    ∀ (bs : List (List NormalizedLand)) (i t : Nat) (s : Store),
      (runBatches batchOk i bs t s).1
        = t + ((List.enumFrom i bs).map
            (fun p => if batchOk p.1 then p.2.length else 0)).sum := by
  intro bs
  induction bs with
  | nil => intro i t s; simp [runBatches]
  | cons b rest ih =>
    intro i t s
    cases h : batchOk i with
    | true =>
      simp [runBatches, h, ih, List.enumFrom_cons]
      omega
    | false =>
      simp [runBatches, h, ih, List.enumFrom_cons]

theorem runBatches_stores (batchOk : Nat → Bool) :
    ∀ (bs : List (List NormalizedLand)) (i t : Nat) (s : Store),
      (runBatches batchOk i bs t s).2
        = List.foldl (fun st b => upsertBatch st (b.map toDbRow)) s
            (((List.enumFrom i bs).filter (fun p => batchOk p.1)).map (fun p => p.2)) := by
  intro bs
  induction bs with
  | nil => intro i t s; simp [runBatches]
  | cons b rest ih =>
    intro i t s
    cases h : batchOk i with
    | true =>
      simp [runBatches, h, ih, List.enumFrom_cons, List.filter_cons]
    | false =>
      simp [runBatches, h, ih, List.enumFrom_cons, List.filter_cons]

theorem enumFrom_sum_all (batchOk : Nat → Bool) (hall : ∀ k, batchOk k = true) :
    ∀ (bs : List (List NormalizedLand)) (i : Nat),
      ((List.enumFrom i bs).map (fun p => if batchOk p.1 then p.2.length else 0)).sum
        = (bs.map List.length).sum := by
  intro bs
  induction bs with
  | nil => intro i; rfl
  | cons b rest ih =>
    intro i
    simp only [List.enumFrom_cons, List.map_cons, List.sum_cons, hall i, if_true, ih]

/-- **C8.** The per-city write phase slices the normalized records into
batches of at most 100 that exactly cover the record list; the city is
marked successful regardless of batch outcomes; the reported count is
exactly the summed size of the successful batches (failed batches
contribute zero, batches after a failure still count); when every batch
succeeds the count is the full record count; and the final store is the
fold of the successful batches only — later batches are applied even
when an earlier batch failed. -/
theorem C8_batched_upsert (batchOk : Nat → Bool) (lands : List NormalizedLand)
    (db : Store) (city : String) :
    (chunks100 lands).flatten = lands ∧
    (∀ b ∈ chunks100 lands, b.length ≤ 100) ∧
    (cityWrite city batchOk lands db).1.success = true ∧
    (cityWrite city batchOk lands db).1.recordCount
      = (((chunks100 lands).enum).map
          (fun p => if batchOk p.1 then p.2.length else 0)).sum ∧
    ((∀ k, batchOk k = true) →
      (cityWrite city batchOk lands db).1.recordCount = lands.length) ∧
    (cityWrite city batchOk lands db).2
      = List.foldl (fun st b => upsertBatch st (b.map toDbRow)) db
          ((((chunks100 lands).enum).filter (fun p => batchOk p.1)).map (fun p => p.2)) := by
  refine ⟨chunks100_flatten lands, chunks100_sizes lands, rfl, ?_, ?_, ?_⟩
  · have := runBatches_count batchOk (chunks100 lands) 0 0 db
    simpa [cityWrite, List.enum] using this
  · intro hall
    have h1 := runBatches_count batchOk (chunks100 lands) 0 0 db
    have h2 := enumFrom_sum_all batchOk hall (chunks100 lands) 0
    have h3 : ((chunks100 lands).map List.length).sum = lands.length := by
      rw [← List.length_flatten, chunks100_flatten]
    simp only [cityWrite]
    rw [h1, h2, h3]
    omega
  · have := runBatches_stores batchOk (chunks100 lands) 0 0 db
    simpa [cityWrite, List.enum] using this

/-- **C8, witness**: one all-successful batch of a single record is
counted in full and the batches cover the list. -/
theorem C8_witness :
    (cityWrite "台北市" (fun _ => true) [wLand] []).1.success = true ∧
    (cityWrite "台北市" (fun _ => true) [wLand] []).1.recordCount = 1 ∧
    (chunks100 [wLand]).flatten = [wLand] := by
  have h := C8_batched_upsert (fun _ => true) [wLand] [] "台北市"
  exact ⟨h.2.2.1, h.2.2.2.2.1 (fun _ => rfl), h.1⟩

/-! ## Helper lemmas: the orchestrator city loop -/

theorem syncCityData_city (env : SyncEnv) (city : String) (db : Store) :
    (syncCityData env city db).1.city = city := by
  unfold syncCityData
  split <;>
    first
      | rfl
      | (unfold syncFetched; split <;> simp [cityWrite])

theorem cityStep_city (env : SyncEnv) (db : Store) (c : String) :
    (cityStep env db c).1.city = c := by
  unfold cityStep
  split
  · rfl
  · exact syncCityData_city env c db

theorem runCitiesAux_length (env : SyncEnv) :
    ∀ (cities : List String) (db : Store),
      ((runCitiesAux env db cities).1).length = cities.length := by
  intro cities
  induction cities with
  | nil => intro db; rfl
  | cons c cs ih => intro db; simp [runCitiesAux, ih]

theorem runCitiesAux_get_city (env : SyncEnv) :
    ∀ (cities : List String) (db : Store) (i : Nat)
      (h1 : i < ((runCitiesAux env db cities).1).length) (h2 : i < cities.length),
      (((runCitiesAux env db cities).1).get ⟨i, h1⟩).city = cities.get ⟨i, h2⟩ := by
  intro cities
  induction cities with
  | nil => intro db i h1 h2; simp at h2
  | cons c cs ih =>
    intro db i h1 h2
    cases i with
    | zero => exact cityStep_city env db c
    | succ k =>
      have hk1 : k < ((runCitiesAux env (cityStep env db c).2 cs).1).length := by
        have := runCitiesAux_length env (c :: cs) db
        simp only [runCitiesAux] at h1
        simp only [List.length_cons] at h1
        rw [runCitiesAux_length]
        rw [runCitiesAux_length] at h1
        omega
      have hk2 : k < cs.length := by simpa using h2
      exact (ih (cityStep env db c).2 k hk1 hk2)

/-- **C1.** The cron orchestrator reports exactly one result per
requested city, in order (so no city's failure aborts the loop — every
later city still gets a result), and the run-level success flag is true
exactly when every per-city result succeeded. -/
theorem C1_partial_failure_isolation (env : SyncEnv) (cities : List String) (db : Store) :
    ((cronGET env cities db).1.results).length = cities.length ∧
    (∀ (i : Nat) (h1 : i < ((cronGET env cities db).1.results).length)
       (h2 : i < cities.length),
      (((cronGET env cities db).1.results).get ⟨i, h1⟩).city = cities.get ⟨i, h2⟩) ∧
    ((cronGET env cities db).1.success = true ↔
      ∀ r ∈ (cronGET env cities db).1.results, r.success = true) := by
  refine ⟨runCitiesAux_length env cities db, ?_, ?_⟩
  · intro i h1 h2
    exact runCitiesAux_get_city env cities db i h1 h2
  · simp [cronGET, List.all_eq_true]

/-- **C1, witness**: three cities where the middle city's fetch fails —
all three are reported in order, the run flag is false, and the
per-city flags are true, false, true. -/
theorem C1_witness :
    ((cronGET wEnv wCities []).1.results).length = 3 ∧
    (((cronGET wEnv wCities []).1.results).get ⟨1, by decide⟩).city = "嘉義市" ∧
    (cronGET wEnv wCities []).1.success = false ∧
    (((cronGET wEnv wCities []).1.results).get ⟨0, by decide⟩).success = true ∧
    (((cronGET wEnv wCities []).1.results).get ⟨1, by decide⟩).success = false ∧
    (((cronGET wEnv wCities []).1.results).get ⟨2, by decide⟩).success = true := by
  refine ⟨?_, ?_, by decide, by decide, by decide, by decide⟩
  · exact (C1_partial_failure_isolation wEnv wCities []).1
  · exact (C1_partial_failure_isolation wEnv wCities []).2.1 1 (by decide) (by decide)

/-! ## Helper lemmas: the pagination loop -/

theorem taipeiLoop_err_eq (up : Nat → PageResp) (off : Nat) (acc : List Row) (p : Nat)
    (s : Nat) (h : up off = .err s) :
    taipeiLoop up off acc p = .flFail ("Failed to fetch: " ++ natToDec s) (p + 1) := by
  rw [taipeiLoop, h]

theorem taipeiLoop_ok_eq (up : Nat → PageResp) (off : Nat) (acc : List Row) (p : Nat)
    (records : List Row) (h : up off = .ok records) :
    taipeiLoop up off acc p =
      if records.isEmpty then .flDone acc (p + 1)
      else if 100000 < (acc ++ records).length then .flDone (acc ++ records) (p + 1)
      else taipeiLoop up (off + 1000) (acc ++ records) (p + 1) := by
  rw [taipeiLoop, h]
  rfl

theorem fetchFromTaipei_done (up : Nat → PageResp) (acc : List Row) (n : Nat)
    (h : taipeiLoop up 0 [] 0 = .flDone acc n) :
    fetchFromTaipei up =
      if acc.length = 0 then
        { success := false, data := none, error := some "No records found",
          recordCount := none }
      else
        { success := true, data := some acc, error := none,
          recordCount := some acc.length } := by
  unfold fetchFromTaipei
  rw [h]

theorem fetchFromTaipei_fail (up : Nat → PageResp) (msg : String) (n : Nat)
    (h : taipeiLoop up 0 [] 0 = .flFail msg n) :
    fetchFromTaipei up =
      { success := false, data := none, error := some msg, recordCount := none } := by
  unfold fetchFromTaipei
  rw [h]

theorem taipeiLoop_fetches_le (up : Nat → PageResp) (N : Nat)
    (hN : up (1000 * N) = .ok []) :
    ∀ (d k : Nat) (acc : List Row) (p : Nat), N = k + d →
      loopFetches (taipeiLoop up (1000 * k) acc p) ≤ p + d + 1 := by
  intro d
  induction d with
  | zero =>
    intro k acc p hk
    have hk2 : k = N := by omega
    rw [hk2]
    rw [taipeiLoop_ok_eq up (1000 * N) acc p [] hN]
    simp [loopFetches]
  | succ d ih =>
    intro k acc p hk
    cases hu : up (1000 * k) with
    | err s =>
      rw [taipeiLoop_err_eq up (1000 * k) acc p s hu]
      simp only [loopFetches]
      omega
    | ok records =>
      rw [taipeiLoop_ok_eq up (1000 * k) acc p records hu]
      by_cases h0 : records.isEmpty
      · rw [if_pos h0]
        simp only [loopFetches]
        omega
      · rw [if_neg h0]
        by_cases hcap : 100000 < (acc ++ records).length
        · rw [if_pos hcap]
          simp only [loopFetches]
          omega
        · rw [if_neg hcap]
          have heq : 1000 * k + 1000 = 1000 * (k + 1) := by ring
          rw [heq]
          have := ih (k + 1) (acc ++ records) (p + 1) (by omega)
          omega

theorem taipeiLoop_done_len (up : Nat → PageResp) (L : Nat)
    (hL : ∀ off rows, up off = .ok rows → rows.length ≤ L) :
    ∀ (m : Nat) (acc : List Row) (off p : Nat), acc.length ≤ 100000 →
      100001 - acc.length ≤ m →
      ∀ (l : List Row) (n : Nat), taipeiLoop up off acc p = .flDone l n →
        l.length ≤ 100000 + L := by
  intro m
  induction m with
  | zero =>
    intro acc off p hlen hm l n h
    omega
  | succ m ih =>
    intro acc off p hlen hm l n h
    cases hu : up off with
    | err s =>
      rw [taipeiLoop_err_eq up off acc p s hu] at h
      exact LoopOut.noConfusion h
    | ok records =>
      have hrec : records.length ≤ L := hL off records hu
      rw [taipeiLoop_ok_eq up off acc p records hu] at h
      by_cases h0 : records.isEmpty
      · rw [if_pos h0] at h
        cases h
        omega
      · rw [if_neg h0] at h
        by_cases hcap : 100000 < (acc ++ records).length
        · rw [if_pos hcap] at h
          cases h
          simp only [List.length_append]
          omega
        · rw [if_neg hcap] at h
          have hpos : 0 < records.length :=
            List.length_pos.mpr (by simpa [List.isEmpty_iff] using h0)
          have hlen2 : (acc ++ records).length ≤ 100000 := by
            simpa using Nat.not_lt.mp hcap
          refine ih (acc ++ records) (off + 1000) (p + 1) hlen2 ?_ l n h
          simp only [List.length_append] at hlen2 ⊢
          omega

theorem upConst_loop :
    ∀ (m : Nat) (acc : List Row) (off p : Nat), acc.length % 1000 = 0 →
      acc.length ≤ 100000 → 100001 - acc.length ≤ m →
      ∃ (l : List Row) (n : Nat),
        taipeiLoop upConst off acc p = .flDone l n ∧ l.length = 101000 := by
  intro m
  induction m with
  | zero =>
    intro acc off p hmod hlen hm
    omega
  | succ m ih =>
    intro acc off p hmod hlen hm
    have hu : upConst off = .ok (List.replicate 1000 ([] : Row)) := rfl
    rw [taipeiLoop_ok_eq upConst off acc p _ hu]
    rw [if_neg (by simp)]
    by_cases hcap : 100000 < (acc ++ List.replicate 1000 ([] : Row)).length
    · rw [if_pos hcap]
      refine ⟨_, p + 1, rfl, ?_⟩
      simp only [List.length_append, List.length_replicate] at hcap ⊢
      omega
    · rw [if_neg hcap]
      refine ih _ (off + 1000) (p + 1) ?_ ?_ ?_ <;>
        simp only [List.length_append, List.length_replicate] at hcap ⊢ <;> omega

/-- **C3, counterexample.** Against an upstream that returns a full
1000-row page at every offset, the accumulated record set reaches
101,000 rows — the safety cap is checked only after a page is
accumulated, so the total exceeds the claimed 100,000-row bound. -/
theorem C3_counterexample :
    (fetchFromTaipei upConst).recordCount = some 101000 ∧ ¬ (101000 ≤ 100000) := by
  obtain ⟨l, n, hloop, hlen⟩ :=
    upConst_loop 100001 [] 0 0 (by simp) (by simp) (by simp)
  refine ⟨?_, by omega⟩
  rw [fetchFromTaipei_done upConst l n hloop]
  rw [if_neg (by omega)]
  simp [hlen]

/-- **C3 (amended).** The pagination loop stops at the first empty page
— with page `N` empty it makes at most `N + 1` listing calls — and,
with every page at most `L` rows, the accumulated record set is bounded
by `100000 + L` (not by `100000`: the cap is checked after
accumulating, so the final page may push the total past the cap by up
to one page). -/
theorem C3_pagination_amended (up : Nat → PageResp) (N L : Nat)
    (hN : up (1000 * N) = .ok [])
    (hL : ∀ off rows, up off = .ok rows → rows.length ≤ L) :
    fetchCalls up ≤ N + 1 ∧
    ∀ rows, (fetchFromTaipei up).data = some rows → rows.length ≤ 100000 + L := by
  constructor
  · have h := taipeiLoop_fetches_le up N hN N 0 [] 0 (by omega)
    simpa [fetchCalls] using h
  · intro rows hdata
    cases hloop : taipeiLoop up 0 [] 0 with
    | flFail msg n =>
      rw [fetchFromTaipei_fail up msg n hloop] at hdata
      simp at hdata
    | flDone acc n =>
      rw [fetchFromTaipei_done up acc n hloop] at hdata
      by_cases hz : acc.length = 0
      · rw [if_pos hz] at hdata
        simp at hdata
      · rw [if_neg hz] at hdata
        simp only [Option.some.injEq] at hdata
        subst hdata
        exact taipeiLoop_done_len up L hL 100001 [] 0 0 (by simp) (by simp) acc n hloop

/-- **C3, witness**: a listing with one single-row page then an empty
page makes at most two calls and returns that row within the amended
bound. -/
theorem C3_witness :
    fetchCalls wUp ≤ 1 + 1 ∧
    (fetchFromTaipei wUp).data = some [wRowT] ∧
    ([wRowT] : List Row).length ≤ 100000 + 1 := by
  have hN : wUp (1000 * 1) = .ok [] := rfl
  have hL : ∀ off rows, wUp off = .ok rows → rows.length ≤ 1 := by
    intro off rows h
    unfold wUp at h
    by_cases h0 : off = 0
    · rw [if_pos h0] at h
      cases h
      simp
    · rw [if_neg h0] at h
      cases h
      simp
  have h := C3_pagination_amended wUp 1 1 hN hL
  have hstep1 : taipeiLoop wUp 0 [] 0 = taipeiLoop wUp 1000 [wRowT] 1 := by
    rw [taipeiLoop_ok_eq wUp 0 [] 0 [wRowT] rfl]
    rw [if_neg (by decide)]
    rw [if_neg (by decide)]
    rfl
  have hstep2 : taipeiLoop wUp 1000 [wRowT] 1 = .flDone [wRowT] 2 := by
    rw [taipeiLoop_ok_eq wUp 1000 [wRowT] 1 [] rfl]
    rfl
  have hdone : taipeiLoop wUp 0 [] 0 = .flDone [wRowT] 2 := hstep1.trans hstep2
  have hdata : (fetchFromTaipei wUp).data = some [wRowT] := by
    rw [fetchFromTaipei_done wUp [wRowT] 2 hdone]
    rw [if_neg (by decide)]
  exact ⟨h.1, hdata, h.2 [wRowT] hdata⟩

end HeritageHunter
